/-
Shallow embedding of the Complaint Tracking System (TypeScript/React) data
layer, verified against its natural-language specification.

Embedded source files:
  * `src/types/index.ts`       : the data model (Complaint, AppData, filters).
  * `src/utils/storage.ts`     : localStorage persistence layer
                                 (generateSampleData, generateComplaintId,
                                  saveToStorage, loadFromStorage, importData).
  * the `useComplaintData` hook: two divergent duplicated implementations of
    createComplaint / updateComplaintStatus / addComment /
    getFilteredComplaints, plus getAnalyticsData and
    calculateAverageResolutionTime.  Where the two implementations differ,
    the embedding keeps both, suffixed `1` (first copy in the file) and `2`
    (second copy).

Modelling conventions:
  * JS numbers holding timestamps/counters are modelled as `Int`
    (all arithmetic involved is exact integer arithmetic, except the average
    resolution time, whose real-valued division + `Math.round` is modelled
    with exact integer floor arithmetic).
  * `Date.now()`, the current calendar date and `Math.random()` draws are
    passed in as explicit parameters.
  * `localStorage` is modelled as a value of type `StoredBlob`:
    absent key, unparsable JSON, or a parsed `AppData` value.
  * Optional / possibly-`undefined` fields are `Option`s.
  * JS strings are compared and lowercased at the character level
    (`String.prototype.toLowerCase` is modelled on the ASCII range, the only
    range exercised by the data in this repository).
  * `Array.prototype.sort(cmp)` (a stable sort in the host engines) is
    modelled by the stable `List.insertionSort` on the boolean ordering
    `cmp a b ≤ 0`.
-/
import Mathlib

namespace CTS

/-! ### JavaScript string primitives -/

/-- Character-level strict comparison of strings by code unit, as used by the
JS `<` operator on two strings (lexicographic, shorter prefix is smaller). -/
def strLtL : List Char → List Char → Bool
  | [], [] => false
  | [], _ :: _ => true
  | _ :: _, [] => false
  | a :: as, b :: bs =>
    if a.toNat < b.toNat then true
    else if b.toNat < a.toNat then false
    else strLtL as bs

/-- JS `a < b` on two strings. -/
def jsStrLt (a b : String) : Bool := strLtL a.toList b.toList

/-- ASCII lowering of one character (the range exercised by this program). -/
def charLower (c : Char) : Char :=
  if 65 ≤ c.toNat ∧ c.toNat ≤ 90 then Char.ofNat (c.toNat + 32) else c

/-- JS `String.prototype.toLowerCase`, modelled on the ASCII range. -/
def jsToLower (s : String) : String := String.mk (s.toList.map charLower)

def startsWithL : List Char → List Char → Bool
  | [], _ => true
  | _ :: _, [] => false
  | a :: as, b :: bs => a == b && startsWithL as bs

def containsL (q : List Char) : List Char → Bool
  | [] => startsWithL q []
  | c :: cs => startsWithL q (c :: cs) || containsL q cs

/-- JS `s.includes(q)`: `q` occurs as a contiguous substring of `s`. -/
def jsIncludes (s q : String) : Bool := containsL q.toList s.toList

/-- JS `s.padStart(len, "0")`. -/
def padZeros (len : Nat) (s : String) : String :=
  if len ≤ s.length then s
  else String.mk (List.replicate (len - s.length) '0') ++ s

/-- JS `Array.prototype.join(",")` (used to model array-to-string coercion). -/
def joinComma : List String → String
  | [] => ""
  | [s] => s
  | s :: rest => s ++ "," ++ joinComma rest

/-! ### Data model (`src/types/index.ts`) -/

/-- `ComplaintStatus = 'New' | 'In Review' | 'Resolved' | 'Rejected'` -/
inductive ComplaintStatus
  | new
  | inReview
  | resolved
  | rejected
deriving DecidableEq

/-- The JS string literal of a status. -/
def ComplaintStatus.toJS : ComplaintStatus → String
  | .new => "New"
  | .inReview => "In Review"
  | .resolved => "Resolved"
  | .rejected => "Rejected"

/-- `ComplaintCategory` string-literal union. -/
inductive ComplaintCategory
  | sanitation
  | roads
  | utilities
  | publicSafety
  | parks
  | housing
  | noise
  | other
deriving DecidableEq

def ComplaintCategory.toJS : ComplaintCategory → String
  | .sanitation => "Sanitation"
  | .roads => "Roads & Infrastructure"
  | .utilities => "Utilities"
  | .publicSafety => "Public Safety"
  | .parks => "Parks & Recreation"
  | .housing => "Housing"
  | .noise => "Noise"
  | .other => "Other"

/-- `Priority = 'Low' | 'Medium' | 'High' | 'Critical'` -/
inductive Priority
  | low
  | medium
  | high
  | critical
deriving DecidableEq

def Priority.toJS : Priority → String
  | .low => "Low"
  | .medium => "Medium"
  | .high => "High"
  | .critical => "Critical"

structure Attachment where
  id : String
  name : String
  mime : String
  base64 : String
  size : Int
deriving DecidableEq

/-- `HistoryEntry` (the TS field `by` is a Lean keyword; it is embedded as
`by_`). -/
structure HistoryEntry where
  id : String
  timestamp : Int
  by_ : String
  action : String
  note : Option String := none
  previousStatus : Option ComplaintStatus := none
  newStatus : Option ComplaintStatus := none
deriving DecidableEq

structure Comment where
  id : String
  by_ : String
  text : String
  timestamp : Int
  isPrivate : Bool
deriving DecidableEq

/-- `preferredContact : 'email' | 'phone'` is kept as its string literal. -/
structure Reporter where
  name : String
  email : String
  phone : Option String := none
  preferredContact : String
deriving DecidableEq

structure Complaint where
  id : String
  title : String
  description : String
  category : ComplaintCategory
  priority : Priority
  status : ComplaintStatus
  createdAt : Int
  updatedAt : Int
  location : Option String := none
  reporter : Reporter
  assignee : Option String := none
  attachments : List Attachment
  history : List HistoryEntry
  comments : List Comment
  tags : Option (List String) := none
deriving DecidableEq

/-- `role : 'admin' | 'citizen'` is kept as its string literal. -/
structure User where
  id : String
  name : String
  email : String
  role : String
deriving DecidableEq

/-- `AppSettings`.  `notifications` and `theme` are required by the TS type,
but `importData` can construct a settings object carrying only `version`, so
the runtime value of either field may be `undefined`; they are `Option`s. -/
structure AppSettings where
  version : String
  lastBackup : Option Int := none
  notifications : Option Bool := none
  theme : Option String := none
deriving DecidableEq

structure AppData where
  complaints : List Complaint
  users : List User
  settings : AppSettings
  lastModified : Int
  version : String
deriving DecidableEq

/-- `dateRange: { start: Date; end: Date }`, by their `getTime()` values
(`end` is a Lean keyword; it is embedded as `stop`). -/
structure DateRange where
  start : Int
  stop : Int
deriving DecidableEq

structure ComplaintFilters where
  status : Option (List ComplaintStatus) := none
  category : Option (List ComplaintCategory) := none
  priority : Option (List Priority) := none
  assignee : Option (List String) := none
  dateRange : Option DateRange := none
  searchQuery : Option String := none
deriving DecidableEq

/-- `sortBy : keyof Complaint`. -/
inductive SortKey
  | id
  | title
  | description
  | category
  | priority
  | status
  | createdAt
  | updatedAt
  | location
  | reporter
  | assignee
  | attachments
  | history
  | comments
  | tags
deriving DecidableEq

inductive SortOrder
  | asc
  | desc
deriving DecidableEq

structure PaginationOptions where
  page : Int
  limit : Int
  sortBy : SortKey
  sortOrder : SortOrder
deriving DecidableEq

/-! ### Storage layer (`src/utils/storage.ts`) -/

def STORAGE_VERSION : String := "1.0.0"

/-- Milliseconds in a day (`24 * 60 * 60 * 1000`). -/
def dayMs : Int := 24 * 60 * 60 * 1000

/-- `generateComplaintId`: format `CT-YYYYMMDD-XXXX`.  The calendar date and
the draw `Math.floor(Math.random() * 9999)` are passed in as parameters. -/
def generateComplaintId (year month day rand : Nat) : String :=
  "CT-" ++ toString year ++ padZeros 2 (toString month) ++
    padZeros 2 (toString day) ++ "-" ++ padZeros 4 (toString rand)

/-- `generateSampleData`: the data created for first-time users.  `now` is
`Date.now()`; `y m d` the current calendar date and `r1 r2` the two random
draws used by the two `generateComplaintId()` calls. -/
def generateSampleData (now : Int) (y m d r1 r2 : Nat) : AppData :=
  { complaints := [
      { id := generateComplaintId y m d r1
        title := "Blocked storm drain on Main Street"
        description := "The storm drain near 123 Main Street has been blocked for several days, causing water to pool during rain. This creates a safety hazard for pedestrians and vehicles."
        category := .sanitation
        priority := .high
        status := .inReview
        createdAt := now - 2 * dayMs
        updatedAt := now - dayMs
        location := some "123 Main Street, Downtown"
        reporter := { name := "John Smith", email := "john.smith@email.com",
                      phone := some "+1-555-0123", preferredContact := "email" }
        assignee := some "Sarah Johnson"
        attachments := []
        history := [
          { id := "hist_1", timestamp := now - 2 * dayMs, by_ := "System",
            action := "Complaint submitted", newStatus := some .new },
          { id := "hist_2", timestamp := now - dayMs, by_ := "Sarah Johnson",
            action := "Status updated",
            note := some "Assigned to maintenance team for inspection",
            previousStatus := some .new, newStatus := some .inReview }]
        comments := [
          { id := "comm_1", by_ := "Sarah Johnson",
            text := "We have received your complaint and dispatched a team to assess the situation. Expected resolution within 3-5 business days.",
            timestamp := now - dayMs, isPrivate := false }]
        tags := some ["infrastructure", "safety"] },
      { id := generateComplaintId y m d r2
        title := "Streetlight not working"
        description := "The streetlight at the corner of Oak and Pine has been out for over a week, making the area unsafe at night."
        category := .publicSafety
        priority := .medium
        status := .new
        createdAt := now - dayMs
        updatedAt := now - dayMs
        location := some "Corner of Oak St and Pine Ave"
        reporter := { name := "Maria Garcia", email := "maria.garcia@email.com",
                      preferredContact := "email" }
        attachments := []
        history := [
          { id := "hist_3", timestamp := now - dayMs, by_ := "System",
            action := "Complaint submitted", newStatus := some .new }]
        comments := []
        tags := some ["lighting", "safety"] }]
    users := [
      { id := "admin_1", name := "Sarah Johnson", email := "admin@city.gov",
        role := "admin" },
      { id := "admin_2", name := "Michael Chen", email := "supervisor@city.gov",
        role := "admin" }]
    settings := { version := STORAGE_VERSION, notifications := some true,
                  theme := some "system" }
    version := STORAGE_VERSION
    lastModified := now }

/-- The state of the `cts_data_v1` localStorage key: absent, holding a string
`JSON.parse` rejects, or holding a serialized `AppData` value. -/
inductive StoredBlob
  | absent
  | unparsable
  | parsed (d : AppData)
deriving DecidableEq

/-- `saveToStorage`: when localStorage is available, serializes the data with
`lastModified` refreshed to `Date.now()` and returns `true`; otherwise leaves
the store untouched and returns `false`. -/
def saveToStorage (avail : Bool) (blob : StoredBlob) (d : AppData)
    (now : Int) : Bool × StoredBlob :=
  if avail then (true, .parsed { d with lastModified := now })
  else (false, blob)

/-- `loadFromStorage`: returns the loaded data and the resulting store. -/
def loadFromStorage (avail : Bool) (blob : StoredBlob) (now : Int)
    (y m d r1 r2 : Nat) : AppData × StoredBlob :=
  if avail then
    match blob with
    | .absent =>
      let sample := generateSampleData now y m d r1 r2
      (sample, (saveToStorage true blob sample now).2)
    | .unparsable =>
      let sample := generateSampleData now y m d r1 r2
      (sample, (saveToStorage true blob sample now).2)
    | .parsed dat =>
      if dat.version = STORAGE_VERSION then (dat, blob)
      else
        let sample := generateSampleData now y m d r1 r2
        (sample, (saveToStorage true blob sample now).2)
  else (generateSampleData now y m d r1 r2, blob)

/-- The parsed value of an `importData` input string: every field of the cast
`AppData` may be missing (or, for the arrays, fail `Array.isArray`). -/
structure ImportValue where
  complaints : Option (List Complaint) := none
  users : Option (List User) := none
  settings : Option AppSettings := none
  version : Option String := none
  lastModified : Option Int := none

/-- Outcome of `JSON.parse` on the `importData` input string. -/
inductive ImportParse
  | unparsable
  | parsed (v : ImportValue)

/-- `importData`: validates the parsed input, stamps the current storage
version on `version` and `settings.version` and saves. -/
def importData (avail : Bool) (blob : StoredBlob) (input : ImportParse)
    (now : Int) : Bool × StoredBlob :=
  match input with
  | .unparsable => (false, blob)
  | .parsed v =>
    match v.complaints, v.users with
    | some cs, some us =>
      let settings : AppSettings :=
        match v.settings with
        | some s => { s with version := STORAGE_VERSION }
        | none => { version := STORAGE_VERSION }
      let d : AppData :=
        { complaints := cs, users := us, settings := settings,
          version := STORAGE_VERSION,
          -- whatever `lastModified` the input carried is immediately
          -- overwritten by `saveToStorage`
          lastModified := v.lastModified.getD 0 }
      saveToStorage avail blob d now
    | _, _ => (false, blob)

/-! ### `useComplaintData` hook operations

The hook exists twice in the source; the two copies of each operation are
embedded as pure state transformers, suffixed `1` and `2`.  `Date.now()` and
the generated complaint id are explicit parameters. -/

/-- `Omit<Complaint, 'id' | 'createdAt' | 'updatedAt' | 'history' | 'comments'>` -/
structure ComplaintInput where
  title : String
  description : String
  category : ComplaintCategory
  priority : Priority
  status : ComplaintStatus
  location : Option String := none
  reporter : Reporter
  assignee : Option String := none
  attachments : List Attachment := []
  tags : Option (List String) := none
deriving DecidableEq

/-- The complaint built by the first `createComplaint`: audit entry authored
by the reporter, action `Complaint Submitted`, `newStatus` hard-coded to
`'New'`. -/
def buildComplaint1 (inp : ComplaintInput) (id : String) (now : Int) : Complaint :=
  { id := id
    title := inp.title
    description := inp.description
    category := inp.category
    priority := inp.priority
    status := inp.status
    createdAt := now
    updatedAt := now
    location := inp.location
    reporter := inp.reporter
    assignee := inp.assignee
    attachments := inp.attachments
    history := [
      { id := "hist_" ++ toString now, timestamp := now,
        by_ := inp.reporter.name, action := "Complaint Submitted",
        newStatus := some .new }]
    comments := []
    tags := inp.tags }

def createComplaint1 (data : AppData) (inp : ComplaintInput) (id : String)
    (now : Int) : Complaint × AppData :=
  let c := buildComplaint1 inp id now
  (c, { data with complaints := data.complaints ++ [c] })

/-- The complaint built by the second `createComplaint`: audit entry authored
by `'System'`, action `Complaint submitted`, `newStatus` the input status. -/
def buildComplaint2 (inp : ComplaintInput) (id : String) (now : Int) : Complaint :=
  { id := id
    title := inp.title
    description := inp.description
    category := inp.category
    priority := inp.priority
    status := inp.status
    createdAt := now
    updatedAt := now
    location := inp.location
    reporter := inp.reporter
    assignee := inp.assignee
    attachments := inp.attachments
    history := [
      { id := "hist_" ++ toString now, timestamp := now,
        by_ := "System", action := "Complaint submitted",
        newStatus := some inp.status }]
    comments := []
    tags := inp.tags }

def createComplaint2 (data : AppData) (inp : ComplaintInput) (id : String)
    (now : Int) : Complaint × AppData :=
  let c := buildComplaint2 inp id now
  (c, { data with complaints := data.complaints ++ [c], lastModified := now })

/-- First `updateComplaintStatus` (the inner `data.complaints[i]? = none`
branch is unreachable: `findIdx?` only returns in-bounds indices). -/
def updateComplaintStatus1 (data : AppData) (complaintId : String)
    (newStatus : ComplaintStatus) (note : Option String) (updatedBy : String)
    (now : Int) : Bool × AppData :=
  match data.complaints.findIdx? (fun c => c.id == complaintId) with
  | none => (false, data)
  | some i =>
    match data.complaints[i]? with
    | none => (false, data)
    | some c =>
      let entry : HistoryEntry :=
        { id := "hist_" ++ toString now, timestamp := now, by_ := updatedBy,
          action := "Status Updated", note := note,
          previousStatus := some c.status, newStatus := some newStatus }
      let c' := { c with status := newStatus, updatedAt := now,
                         history := c.history ++ [entry] }
      (true, { data with complaints := data.complaints.set i c' })

/-- Second `updateComplaintStatus` (action string `Status updated`, also
refreshes `lastModified`). -/
def updateComplaintStatus2 (data : AppData) (complaintId : String)
    (newStatus : ComplaintStatus) (note : Option String) (updatedBy : String)
    (now : Int) : Bool × AppData :=
  match data.complaints.findIdx? (fun c => c.id == complaintId) with
  | none => (false, data)
  | some i =>
    match data.complaints[i]? with
    | none => (false, data)
    | some c =>
      let entry : HistoryEntry :=
        { id := "hist_" ++ toString now, timestamp := now, by_ := updatedBy,
          action := "Status updated", note := note,
          previousStatus := some c.status, newStatus := some newStatus }
      let c' := { c with status := newStatus, updatedAt := now,
                         history := c.history ++ [entry] }
      (true, { data with complaints := data.complaints.set i c',
                         lastModified := now })

/-- `addComment` (only the second hook copy defines it). -/
def addComment (data : AppData) (complaintId : String) (text : String)
    (author : String) (isPrivate : Bool) (now : Int) : Bool × AppData :=
  match data.complaints.findIdx? (fun c => c.id == complaintId) with
  | none => (false, data)
  | some i =>
    match data.complaints[i]? with
    | none => (false, data)
    | some c =>
      let newComment : Comment :=
        { id := "comm_" ++ toString now, by_ := author, text := text,
          timestamp := now, isPrivate := isPrivate }
      let c' := { c with comments := c.comments ++ [newComment],
                         updatedAt := now }
      (true, { data with complaints := data.complaints.set i c',
                         lastModified := now })

/-! ### Filtering (`getFilteredComplaints`, both copies) -/

/-- The first copy's search predicate: id, title, reporter name. -/
def searchHit1 (q : String) (c : Complaint) : Bool :=
  jsIncludes (jsToLower c.id) q || jsIncludes (jsToLower c.title) q ||
    jsIncludes (jsToLower c.reporter.name) q

/-- The second copy's search predicate: title, description, id,
reporter name. -/
def searchHit2 (q : String) (c : Complaint) : Bool :=
  jsIncludes (jsToLower c.title) q || jsIncludes (jsToLower c.description) q ||
    jsIncludes (jsToLower c.id) q || jsIncludes (jsToLower c.reporter.name) q

/-- The `filters.status?.length` guarded status filter (identical in both
copies): skipped when the filter is absent or empty. -/
def filterByStatus (flt : Option (List ComplaintStatus)) (l : List Complaint) :
    List Complaint :=
  match flt with
  | some ss => if ss.isEmpty then l else
      l.filter (fun c => ss.contains c.status)
  | none => l

/-- The guarded category filter (identical in both copies). -/
def filterByCategory (flt : Option (List ComplaintCategory))
    (l : List Complaint) : List Complaint :=
  match flt with
  | some cats => if cats.isEmpty then l else
      l.filter (fun c => cats.contains c.category)
  | none => l

/-- The guarded priority filter (identical in both copies). -/
def filterByPriority (flt : Option (List Priority)) (l : List Complaint) :
    List Complaint :=
  match flt with
  | some ps => if ps.isEmpty then l else
      l.filter (fun c => ps.contains c.priority)
  | none => l

/-- The guarded assignee filter (second copy only): a complaint matches only
if its `assignee` is defined and listed. -/
def filterByAssignee (flt : Option (List String)) (l : List Complaint) :
    List Complaint :=
  match flt with
  | some asgs => if asgs.isEmpty then l else
      l.filter (fun c => match c.assignee with
        | some a => asgs.contains a
        | none => false)
  | none => l

/-- The `if (filters.searchQuery)` guarded search filter (skipped when the
query is absent or the empty string, both falsy), over a given
lowercased-field hit predicate. -/
def filterBySearch (hit : String → Complaint → Bool) (q : Option String)
    (l : List Complaint) : List Complaint :=
  match q with
  | some s => if s = "" then l else l.filter (hit (jsToLower s))
  | none => l

/-- The date-range filter on `createdAt` (second copy only). -/
def filterByDateRange (flt : Option DateRange) (l : List Complaint) :
    List Complaint :=
  match flt with
  | some dr =>
      l.filter (fun c => dr.start ≤ c.createdAt ∧ c.createdAt ≤ dr.stop)
  | none => l

/-- First copy's filter pipeline, in source order: `searchQuery` (over
id/title/reporter name), then `status`, `category`, `priority`.  The first
copy has no `assignee` and no `dateRange` filter. -/
def applyFilters1 (f : ComplaintFilters) (l : List Complaint) : List Complaint :=
  filterByPriority f.priority
    (filterByCategory f.category
      (filterByStatus f.status
        (filterBySearch searchHit1 f.searchQuery l)))

/-- Second copy's filter pipeline, in source order: `status`, `category`,
`priority`, `assignee`, `searchQuery` (over title/description/id/reporter
name), then `dateRange`. -/
def applyFilters2 (f : ComplaintFilters) (l : List Complaint) : List Complaint :=
  filterByDateRange f.dateRange
    (filterBySearch searchHit2 f.searchQuery
      (filterByAssignee f.assignee
        (filterByPriority f.priority
          (filterByCategory f.category
            (filterByStatus f.status l)))))

/-! ### Sorting and pagination -/

/-- A JS value as seen by the comparator `a[sortBy] < b[sortBy]`:
`undefined`, a number, or (the string coercion of) everything else. -/
inductive JSVal
  | undefined
  | num (n : Int)
  | str (s : String)
deriving DecidableEq

/-- JS `ToNumber` on the strings this model can compare against a number
(never exercised: a fixed sort key yields values of one kind). -/
def strToNum (s : String) : Option Int :=
  if s = "" then some 0
  else if s.toList.all (fun c => 48 ≤ c.toNat ∧ c.toNat ≤ 57) then
    some (s.toList.foldl (fun a c => a * 10 + ((c.toNat : Int) - 48)) 0)
  else none

/-- JS `<` on two values: any comparison against `undefined` is false;
numbers compare numerically; strings compare lexicographically. -/
def jsLt : JSVal → JSVal → Bool
  | .undefined, _ => false
  | _, .undefined => false
  | .num a, .num b => a < b
  | .str a, .str b => jsStrLt a b
  | .num a, .str s => match strToNum s with | some b => a < b | none => false
  | .str s, .num b => match strToNum s with | some a => a < b | none => false

/-- `a[k]` as the primitive value the comparator sees: strings stay strings,
numbers stay numbers, `undefined`-able fields may be `undefined`, and objects
and arrays coerce to their JS string form. -/
def sortKeyVal (k : SortKey) (c : Complaint) : JSVal :=
  match k with
  | .id => .str c.id
  | .title => .str c.title
  | .description => .str c.description
  | .category => .str c.category.toJS
  | .priority => .str c.priority.toJS
  | .status => .str c.status.toJS
  | .createdAt => .num c.createdAt
  | .updatedAt => .num c.updatedAt
  | .location => match c.location with | some s => .str s | none => .undefined
  | .reporter => .str "[object Object]"
  | .assignee => match c.assignee with | some s => .str s | none => .undefined
  | .attachments => .str (joinComma (c.attachments.map (fun _ => "[object Object]")))
  | .history => .str (joinComma (c.history.map (fun _ => "[object Object]")))
  | .comments => .str (joinComma (c.comments.map (fun _ => "[object Object]")))
  | .tags => match c.tags with | some ts => .str (joinComma ts) | none => .undefined

/-- The comparator passed to `filtered.sort`. -/
def jsCmp (k : SortKey) (ord : SortOrder) (a b : Complaint) : Int :=
  let av := sortKeyVal k a
  let bv := sortKeyVal k b
  if jsLt av bv then (match ord with | .asc => -1 | .desc => 1)
  else if jsLt bv av then (match ord with | .asc => 1 | .desc => -1)
  else 0

/-- `cmp a b ≤ 0`: the ordering a comparator-based JS sort establishes. -/
def cmpLe (k : SortKey) (ord : SortOrder) (a b : Complaint) : Prop :=
  jsCmp k ord a b ≤ 0

instance (k : SortKey) (ord : SortOrder) : DecidableRel (cmpLe k ord) :=
  fun a b => inferInstanceAs (Decidable (jsCmp k ord a b ≤ 0))

/-- `filtered.sort(comparator)`: a stable comparator sort, modelled by the
stable `List.insertionSort` on `cmp a b ≤ 0`. -/
def applySort (p : PaginationOptions) (l : List Complaint) : List Complaint :=
  List.insertionSort (cmpLe p.sortBy p.sortOrder) l

/-- JS `Array.prototype.slice(start, stop)` with its index normalization. -/
def jsSlice {α : Type} (xs : List α) (start stop : Int) : List α :=
  let len : Int := xs.length
  let s := if start < 0 then max (len + start) 0 else min start len
  let e := if stop < 0 then max (len + stop) 0 else min stop len
  (xs.drop s.toNat).take (e - s).toNat

/-- The `{ complaints, total }` record both `getFilteredComplaints` return. -/
structure FilterResult where
  complaints : List Complaint
  total : Nat
deriving DecidableEq

/-- First `getFilteredComplaints`.  When pagination options are present the
filtered list is sorted (`pagination?.sortBy` is a non-empty string literal,
hence always truthy) and sliced; `total` is the filtered length, computed
before pagination. -/
def getFilteredComplaints1 (data : AppData) (f : ComplaintFilters)
    (pg : Option PaginationOptions) : FilterResult :=
  let filtered := applyFilters1 f data.complaints
  let total := filtered.length
  match pg with
  | some p =>
    let sorted := applySort p filtered
    let start := (p.page - 1) * p.limit
    { complaints := jsSlice sorted start (start + p.limit), total := total }
  | none => { complaints := filtered, total := total }

/-- Second `getFilteredComplaints`: same sort/slice shape over its own
filter pipeline. -/
def getFilteredComplaints2 (data : AppData) (f : ComplaintFilters)
    (pg : Option PaginationOptions) : FilterResult :=
  let filtered := applyFilters2 f data.complaints
  let total := filtered.length
  match pg with
  | some p =>
    let sorted := applySort p filtered
    let start := (p.page - 1) * p.limit
    { complaints := jsSlice sorted start (start + p.limit), total := total }
  | none => { complaints := filtered, total := total }

/-! ### Analytics -/

/-- `c.status === 'Resolved' || c.status === 'Rejected'` -/
def isResOrRej (c : Complaint) : Bool :=
  c.status == .resolved || c.status == .rejected

/-- `Math.round(num / den)` for a positive integer `den`, computed exactly:
`⌊num/den + 1/2⌋`. -/
def jsMathRound (num den : Int) : Int := Int.fdiv (2 * num + den) (2 * den)

/-- `calculateAverageResolutionTime`: rounded mean of
`updatedAt - createdAt` in days over the resolved and rejected complaints,
`0` when there are none. -/
def calculateAverageResolutionTime (complaints : List Complaint) : Int :=
  let resolvedComplaints := complaints.filter isResOrRej
  if resolvedComplaints.length = 0 then 0
  else
    let totalTime := resolvedComplaints.foldl
      (fun sum c => sum + (c.updatedAt - c.createdAt)) 0
    jsMathRound totalTime ((resolvedComplaints.length : Int) * (1000 * 60 * 60 * 24))

/-- The `reduce` that builds `byStatus` (and, with other keys, `byCategory` /
`byPriority`): a running tally, `undefined` counts read as `0`. -/
def countByStatus (l : List Complaint) : ComplaintStatus → Nat :=
  l.foldl (fun acc c => fun st => if st = c.status then acc st + 1 else acc st)
    (fun _ => 0)

def countByCategory (l : List Complaint) : ComplaintCategory → Nat :=
  l.foldl (fun acc c => fun k => if k = c.category then acc k + 1 else acc k)
    (fun _ => 0)

def countByPriority (l : List Complaint) : Priority → Nat :=
  l.foldl (fun acc c => fun k => if k = c.priority then acc k + 1 else acc k)
    (fun _ => 0)

structure AnalyticsData where
  total : Nat
  byStatus : ComplaintStatus → Nat
  byCategory : ComplaintCategory → Nat
  byPriority : Priority → Nat
  recent : Nat
  avgResolutionTime : Int

/-- `getAnalyticsData` (second hook copy; `now` is `Date.now()`). -/
def getAnalyticsData (data : AppData) (now : Int) : AnalyticsData :=
  let complaints := data.complaints
  let thirtyDaysAgo := now - 30 * dayMs
  { total := complaints.length
    byStatus := countByStatus complaints
    byCategory := countByCategory complaints
    byPriority := countByPriority complaints
    recent := (complaints.filter (fun c => thirtyDaysAgo < c.createdAt)).length
    avgResolutionTime := calculateAverageResolutionTime complaints }

/-! ### Reachable states (for the unique-id invariant) -/

/-- One hook mutation, with its nondeterministic inputs (generated id,
`Date.now()`) made explicit. -/
inductive Op
  | create (inp : ComplaintInput) (id : String) (now : Int)
  | update (complaintId : String) (newStatus : ComplaintStatus)
      (note : Option String) (updatedBy : String) (now : Int)
  | comment (complaintId : String) (text : String) (author : String)
      (isPrivate : Bool) (now : Int)

def step (d : AppData) : Op → AppData
  | .create inp id now => (createComplaint2 d inp id now).2
  | .update cid ns note ub now => (updateComplaintStatus2 d cid ns note ub now).2
  | .comment cid t a p now => (addComment d cid t a p now).2

def applyOps (d : AppData) (ops : List Op) : AppData := ops.foldl step d

def complaintIds (d : AppData) : List String := d.complaints.map (fun c => c.id)

/-- No two distinct complaints share an id. -/
def uniqueIds (d : AppData) : Prop := (complaintIds d).Nodup

instance (d : AppData) : Decidable (uniqueIds d) :=
  inferInstanceAs (Decidable (complaintIds d).Nodup)

/-- A `create` op only uses an id not already present in `d`; other ops pose
no constraint. -/
def opFreshId (d : AppData) : Op → Bool
  | .create _ id _ => !(complaintIds d).contains id
  | _ => true

/-- Along the run, every id handed to `createComplaint` is fresh for the
state it is applied in. -/
def freshOps (d : AppData) : List Op → Bool
  | [] => true
  | op :: rest => opFreshId d op && freshOps (step d op) rest

/-! ### Pointwise characterization of the filter pipelines -/

/-- A complaint field passes an optional list filter when the filter is
absent, empty (both falsy under the `?.length` guard), or lists the value. -/
def passesOpt {β : Type} [BEq β] (flt : Option (List β)) (x : β) : Bool :=
  match flt with
  | some l => l.isEmpty || l.contains x
  | none => true

/-- A complaint passes an optional search query when the query is absent or
empty or the hit predicate fires. -/
def passesSearch (hit : String → Complaint → Bool) (q : Option String)
    (c : Complaint) : Bool :=
  match q with
  | some s => (s == "") || hit (jsToLower s) c
  | none => true

/-- A complaint passes an optional assignee filter when the filter is absent
or empty, or its assignee is defined and listed. -/
def passesAssignee (flt : Option (List String)) (c : Complaint) : Bool :=
  match flt with
  | some asgs => asgs.isEmpty ||
      (match c.assignee with
       | some a => asgs.contains a
       | none => false)
  | none => true

/-- A complaint passes an optional date range when the range is absent or its
`createdAt` lies inside it. -/
def passesDateRange (flt : Option DateRange) (c : Complaint) : Bool :=
  match flt with
  | some dr => decide (dr.start ≤ c.createdAt ∧ c.createdAt ≤ dr.stop)
  | none => true

/-- A complaint matches the first pipeline. -/
def matches1 (f : ComplaintFilters) (c : Complaint) : Bool :=
  passesSearch searchHit1 f.searchQuery c
  && passesOpt f.status c.status
  && passesOpt f.category c.category
  && passesOpt f.priority c.priority

/-- A complaint matches the second pipeline. -/
def matches2 (f : ComplaintFilters) (c : Complaint) : Bool :=
  passesOpt f.status c.status
  && passesOpt f.category c.category
  && passesOpt f.priority c.priority
  && passesAssignee f.assignee c
  && passesSearch searchHit2 f.searchQuery c
  && passesDateRange f.dateRange c

/-! ### Concrete fixtures -/

/-- A minimal complaint fixture for concrete tests. -/
def testComplaint (id descr : String) (assg : Option String) (created : Int) :
    Complaint :=
  { id := id, title := "title", description := descr, category := .other,
    priority := .low, status := .new, createdAt := created,
    updatedAt := created,
    reporter := { name := "Nora Lee", email := "nora@example.com",
                  preferredContact := "email" },
    assignee := assg, attachments := [], history := [], comments := [] }

/-- A minimal app-data fixture around a complaint list. -/
def testData (cs : List Complaint) : AppData :=
  { complaints := cs, users := [], settings := { version := STORAGE_VERSION },
    lastModified := 0, version := STORAGE_VERSION }


/-! ### Helper lemmas -/

/-- Setting an index to the value it already holds is the identity. -/
theorem set_of_getElem? {α : Type} (l : List α) (i : Nat) (a : α)
    (h : l[i]? = some a) : l.set i a = l := by
  induction l generalizing i with
  | nil => simp at h
  | cons x xs ih =>
    cases i with
    | zero => simp_all
    | succ n =>
      simp only [List.getElem?_cons_succ] at h
      simp [List.set_cons_succ, ih n h]

/-- `findIdx?` misses a list in which no element satisfies the predicate. -/
theorem findIdx?_none_of_not_mem {α : Type} (l : List α) (p : α → Bool)
    (h : ∀ x ∈ l, p x = false) : l.findIdx? p = none := by
  rw [List.findIdx?_eq_none_iff]
  intro x hx
  simp [h x hx]

/-! ### C8: `createComplaint` appends a fresh complaint -/

/-- C8.  For every input to `createComplaint` (either copy), the complaint it
constructs and appends at the end of the complaints array has exactly one
history entry, an empty comments array, and `createdAt` equal to `updatedAt`;
appending at the end leaves every previously existing complaint unchanged. -/
theorem createComplaint_appends_fresh (d : AppData) (inp : ComplaintInput)
    (id : String) (now : Int) :
    ((createComplaint1 d inp id now).2.complaints
        = d.complaints ++ [(createComplaint1 d inp id now).1]
      ∧ (createComplaint1 d inp id now).1.history.length = 1
      ∧ (createComplaint1 d inp id now).1.comments = []
      ∧ (createComplaint1 d inp id now).1.createdAt
          = (createComplaint1 d inp id now).1.updatedAt)
    ∧ ((createComplaint2 d inp id now).2.complaints
        = d.complaints ++ [(createComplaint2 d inp id now).1]
      ∧ (createComplaint2 d inp id now).1.history.length = 1
      ∧ (createComplaint2 d inp id now).1.comments = []
      ∧ (createComplaint2 d inp id now).1.createdAt
          = (createComplaint2 d inp id now).1.updatedAt) := by
  refine ⟨⟨rfl, rfl, rfl, rfl⟩, ⟨rfl, rfl, rfl, rfl⟩⟩

/-! ### C10: `updateComplaintStatus` on a missing id is a no-op -/

/-- C10.  When no complaint carries the requested id, both copies of
`updateComplaintStatus` return `false` and leave the app data (every
complaint, status, history and comment) unchanged. -/
theorem updateComplaintStatus_missing_id_noop (d : AppData) (cid : String)
    (ns : ComplaintStatus) (note : Option String) (ub : String) (now : Int)
    (h : ∀ c ∈ d.complaints, c.id ≠ cid) :
    updateComplaintStatus1 d cid ns note ub now = (false, d)
    ∧ updateComplaintStatus2 d cid ns note ub now = (false, d) := by
  have hnone : d.complaints.findIdx? (fun c => c.id == cid) = none := by
    apply findIdx?_none_of_not_mem
    intro c hc
    simpa using h c hc
  constructor
  · unfold updateComplaintStatus1
    rw [hnone]
  · unfold updateComplaintStatus2
    rw [hnone]

/-- Witness for C10 at a concrete state. -/
theorem updateComplaintStatus_missing_id_noop_witness :
    updateComplaintStatus1 (generateSampleData 0 2024 1 15 1 2) "CT-none"
        .resolved none "Admin" 5 = (false, generateSampleData 0 2024 1 15 1 2)
    ∧ updateComplaintStatus2 (generateSampleData 0 2024 1 15 1 2) "CT-none"
        .resolved none "Admin" 5 = (false, generateSampleData 0 2024 1 15 1 2) :=
  updateComplaintStatus_missing_id_noop (generateSampleData 0 2024 1 15 1 2)
    "CT-none" .resolved none "Admin" 5 (by decide)

/-! ### C1: `updateComplaintStatus` appends exactly one history entry -/

/-- C1.  On a state holding a complaint with the requested id (found at index
`i`, holding complaint `c`), both copies of `updateComplaintStatus` report
success and replace exactly that complaint by one whose history is the old
history with exactly one entry appended, carrying `previousStatus` = the
status before the call and `newStatus` = the requested status, and whose
status is the requested status. -/
theorem updateComplaintStatus_appends_history (d : AppData) (cid : String)
    (ns : ComplaintStatus) (note : Option String) (ub : String) (now : Int)
    (i : Nat) (c : Complaint)
    (hidx : d.complaints.findIdx? (fun x => x.id == cid) = some i)
    (hc : d.complaints[i]? = some c) :
    ((updateComplaintStatus1 d cid ns note ub now).1 = true
      ∧ ∃ c', (updateComplaintStatus1 d cid ns note ub now).2.complaints
            = d.complaints.set i c'
          ∧ c'.status = ns
          ∧ ∃ e, c'.history = c.history ++ [e]
              ∧ e.previousStatus = some c.status ∧ e.newStatus = some ns)
    ∧ ((updateComplaintStatus2 d cid ns note ub now).1 = true
      ∧ ∃ c', (updateComplaintStatus2 d cid ns note ub now).2.complaints
            = d.complaints.set i c'
          ∧ c'.status = ns
          ∧ ∃ e, c'.history = c.history ++ [e]
              ∧ e.previousStatus = some c.status ∧ e.newStatus = some ns) := by
  constructor
  · simp only [updateComplaintStatus1, hidx, hc]
    exact ⟨trivial, _, rfl, rfl, _, rfl, rfl, rfl⟩
  · simp only [updateComplaintStatus2, hidx, hc]
    exact ⟨trivial, _, rfl, rfl, _, rfl, rfl, rfl⟩

/-- Witness for C1 on the sample data (updating its second complaint). -/
theorem updateComplaintStatus_appends_history_witness :
    ((updateComplaintStatus1 (generateSampleData 0 2024 1 15 1 2)
        "CT-20240115-0002" .resolved none "Admin" 7).1 = true
      ∧ ∃ c', (updateComplaintStatus1 (generateSampleData 0 2024 1 15 1 2)
            "CT-20240115-0002" .resolved none "Admin" 7).2.complaints
          = (generateSampleData 0 2024 1 15 1 2).complaints.set 1 c'
        ∧ c'.status = .resolved
        ∧ ∃ e, c'.history
              = ((generateSampleData 0 2024 1 15 1 2).complaints.get
                  ⟨1, by decide⟩).history ++ [e]
            ∧ e.previousStatus
                = some ((generateSampleData 0 2024 1 15 1 2).complaints.get
                    ⟨1, by decide⟩).status
            ∧ e.newStatus = some .resolved)
    ∧ ((updateComplaintStatus2 (generateSampleData 0 2024 1 15 1 2)
        "CT-20240115-0002" .resolved none "Admin" 7).1 = true
      ∧ ∃ c', (updateComplaintStatus2 (generateSampleData 0 2024 1 15 1 2)
            "CT-20240115-0002" .resolved none "Admin" 7).2.complaints
          = (generateSampleData 0 2024 1 15 1 2).complaints.set 1 c'
        ∧ c'.status = .resolved
        ∧ ∃ e, c'.history
              = ((generateSampleData 0 2024 1 15 1 2).complaints.get
                  ⟨1, by decide⟩).history ++ [e]
            ∧ e.previousStatus
                = some ((generateSampleData 0 2024 1 15 1 2).complaints.get
                    ⟨1, by decide⟩).status
            ∧ e.newStatus = some .resolved) :=
  updateComplaintStatus_appends_history (generateSampleData 0 2024 1 15 1 2)
    "CT-20240115-0002" .resolved none "Admin" 7 1
    ((generateSampleData 0 2024 1 15 1 2).complaints.get ⟨1, by decide⟩)
    (by decide) (by decide)

/-! ### C6: versioning on load -/

/-- C6.  `loadFromStorage` always returns data whose `version` is `"1.0.0"`;
when storage is available and the stored blob is absent, unparsable, or has a
version other than `"1.0.0"`, the stored value is discarded: fresh sample
data is returned and saved.  The sample data has two complaints and two
admin users. -/
theorem loadFromStorage_versioning (avail : Bool) (blob : StoredBlob)
    (now : Int) (y m d r1 r2 : Nat) :
    (loadFromStorage avail blob now y m d r1 r2).1.version = STORAGE_VERSION
    ∧ ((blob = .absent ∨ blob = .unparsable
          ∨ (∃ dat, blob = .parsed dat ∧ dat.version ≠ STORAGE_VERSION)) →
        loadFromStorage true blob now y m d r1 r2
          = (generateSampleData now y m d r1 r2,
             (saveToStorage true blob (generateSampleData now y m d r1 r2)
               now).2))
    ∧ (generateSampleData now y m d r1 r2).complaints.length = 2
    ∧ (generateSampleData now y m d r1 r2).users.length = 2
    ∧ ∀ u ∈ (generateSampleData now y m d r1 r2).users, u.role = "admin" := by
  refine ⟨?_, ?_, rfl, rfl, ?_⟩
  · unfold loadFromStorage
    cases avail with
    | false => rfl
    | true =>
      cases blob with
      | absent => rfl
      | unparsable => rfl
      | parsed dat =>
        by_cases h : dat.version = STORAGE_VERSION
        · simp [h]
        · simp only [if_neg h]
          rfl
  · rintro (rfl | rfl | ⟨dat, rfl, hv⟩)
    · rfl
    · rfl
    · simp [loadFromStorage, hv]
  · intro u hu
    simp only [generateSampleData, List.mem_cons, List.not_mem_nil,
      or_false] at hu
    rcases hu with rfl | rfl
    · rfl
    · rfl

/-- Witness for C6 at a concrete mismatched-version blob. -/
theorem loadFromStorage_versioning_witness :
    (loadFromStorage true
        (.parsed { complaints := [], users := [],
                   settings := { version := "0.9.0" }, lastModified := 0,
                   version := "0.9.0" })
        0 2024 1 15 1 2).1.version = STORAGE_VERSION
    ∧ loadFromStorage true
        (.parsed { complaints := [], users := [],
                   settings := { version := "0.9.0" }, lastModified := 0,
                   version := "0.9.0" })
        0 2024 1 15 1 2
      = (generateSampleData 0 2024 1 15 1 2,
         (saveToStorage true
           (.parsed { complaints := [], users := [],
                      settings := { version := "0.9.0" }, lastModified := 0,
                      version := "0.9.0" })
           (generateSampleData 0 2024 1 15 1 2) 0).2) :=
  ⟨(loadFromStorage_versioning true
      (.parsed { complaints := [], users := [],
                 settings := { version := "0.9.0" }, lastModified := 0,
                 version := "0.9.0" })
      0 2024 1 15 1 2).1,
   (loadFromStorage_versioning true
      (.parsed { complaints := [], users := [],
                 settings := { version := "0.9.0" }, lastModified := 0,
                 version := "0.9.0" })
      0 2024 1 15 1 2).2.1
     (Or.inr (Or.inr ⟨_, rfl, by decide⟩))⟩

/-! ### C7: `importData` validation and version stamping -/

/-- C7.  `importData` returns `false` and leaves the store unchanged when the
input is not valid JSON or lacks a complaints array or a users array.  When
the input passes validation, it saves data whose top-level `version` and
`settings.version` are both `"1.0.0"` (keeping the parsed complaints and
users) and returns the result of the save. -/
theorem importData_validation (avail : Bool) (blob : StoredBlob) (now : Int) :
    (importData avail blob .unparsable now = (false, blob))
    ∧ (∀ v : ImportValue, v.complaints = none →
        importData avail blob (.parsed v) now = (false, blob))
    ∧ (∀ v : ImportValue, v.users = none →
        importData avail blob (.parsed v) now = (false, blob))
    ∧ (∀ (v : ImportValue) (cs : List Complaint) (us : List User),
        v.complaints = some cs → v.users = some us →
        ∃ d : AppData,
          importData avail blob (.parsed v) now = saveToStorage avail blob d now
          ∧ d.version = STORAGE_VERSION
          ∧ d.settings.version = STORAGE_VERSION
          ∧ d.complaints = cs ∧ d.users = us) := by
  refine ⟨rfl, ?_, ?_, ?_⟩
  · intro v hv
    simp only [importData, hv]
  · intro v hv
    simp only [importData, hv]
    cases v.complaints <;> rfl
  · intro v cs us hc hu
    simp only [importData, hc, hu]
    refine ⟨_, rfl, rfl, ?_, rfl, rfl⟩
    cases v.settings <;> rfl

/-- Witness for C7: a concrete invalid input and a concrete valid one. -/
theorem importData_validation_witness :
    (importData true .absent .unparsable 3 = (false, .absent))
    ∧ importData true .absent (.parsed { users := some [] }) 3
        = (false, .absent)
    ∧ importData true .absent (.parsed { complaints := some [] }) 3
        = (false, .absent)
    ∧ ∃ d : AppData,
        importData true .absent
            (.parsed { complaints := some [], users := some [] }) 3
          = saveToStorage true .absent d 3
        ∧ d.version = STORAGE_VERSION
        ∧ d.settings.version = STORAGE_VERSION
        ∧ d.complaints = [] ∧ d.users = [] :=
  ⟨(importData_validation true .absent 3).1,
   (importData_validation true .absent 3).2.1 _ rfl,
   (importData_validation true .absent 3).2.2.1 _ rfl,
   (importData_validation true .absent 3).2.2.2 _ [] [] rfl rfl⟩

/-! ### C9: analytics summary is consistent with the complaint list -/

theorem countByStatus_foldl (l : List Complaint) (acc : ComplaintStatus → Nat)
    (st : ComplaintStatus) :
    (l.foldl (fun acc c => fun s => if s = c.status then acc s + 1 else acc s)
        acc) st
      = acc st + l.countP (fun c => c.status == st) := by
  induction l generalizing acc with
  | nil => simp
  | cons c cs ih =>
    simp only [List.foldl_cons, List.countP_cons, ih]
    by_cases h : c.status = st
    · simp [h]
      omega
    · have h' : ¬ st = c.status := fun hh => h hh.symm
      simp [h, h']

theorem countByStatus_eq (l : List Complaint) (st : ComplaintStatus) :
    countByStatus l st = l.countP (fun c => c.status == st) := by
  unfold countByStatus
  rw [countByStatus_foldl]
  simp

theorem countP_status_total (l : List Complaint) :
    l.countP (fun c => c.status == ComplaintStatus.new)
      + l.countP (fun c => c.status == ComplaintStatus.inReview)
      + l.countP (fun c => c.status == ComplaintStatus.resolved)
      + l.countP (fun c => c.status == ComplaintStatus.rejected)
      = l.length := by
  induction l with
  | nil => simp
  | cons c cs ih =>
    simp only [List.countP_cons, List.length_cons]
    cases c.status <;> simp <;> omega

/-- `calculateAverageResolutionTime`, restated over `map`/`sum`. -/
theorem foldl_add_sub (l : List Complaint) (a : Int) :
    l.foldl (fun sum c => sum + (c.updatedAt - c.createdAt)) a
      = a + (l.map (fun c => c.updatedAt - c.createdAt)).sum := by
  induction l generalizing a with
  | nil => simp
  | cons c cs ih =>
    simp only [List.foldl_cons, List.map_cons, List.sum_cons, ih]
    ring

theorem calcAvg_spec (l : List Complaint) :
    calculateAverageResolutionTime l
      = (if (l.filter isResOrRej).length = 0 then 0
         else jsMathRound
           ((l.filter isResOrRej).map (fun c => c.updatedAt - c.createdAt)).sum
           (((l.filter isResOrRej).length : Int) * (1000 * 60 * 60 * 24))) := by
  unfold calculateAverageResolutionTime
  by_cases h : (l.filter isResOrRej).length = 0
  · simp only [if_pos h]
  · simp only [if_neg h]
    rw [foldl_add_sub]
    simp

/-- C9.  The analytics summary is consistent with the complaint list: `total`
is the number of complaints; the four `byStatus` counts sum to `total`; and
`avgResolutionTime` is `0` when no complaint is `Resolved` or `Rejected` and
otherwise the rounded mean of `updatedAt - createdAt` in days over exactly
the resolved and rejected complaints. -/
theorem analytics_consistent (d : AppData) (now : Int) :
    (getAnalyticsData d now).total = d.complaints.length
    ∧ (getAnalyticsData d now).byStatus .new
        + (getAnalyticsData d now).byStatus .inReview
        + (getAnalyticsData d now).byStatus .resolved
        + (getAnalyticsData d now).byStatus .rejected
        = (getAnalyticsData d now).total
    ∧ (getAnalyticsData d now).avgResolutionTime
        = (if (d.complaints.filter
                (fun c => c.status == .resolved || c.status == .rejected)).length
              = 0
           then 0
           else jsMathRound
             ((d.complaints.filter
                (fun c => c.status == .resolved || c.status == .rejected)).map
                  (fun c => c.updatedAt - c.createdAt)).sum
             (((d.complaints.filter
                 (fun c => c.status == .resolved || c.status == .rejected)).length
                : Int) * (1000 * 60 * 60 * 24))) := by
  refine ⟨rfl, ?_, ?_⟩
  · show countByStatus d.complaints .new + countByStatus d.complaints .inReview
        + countByStatus d.complaints .resolved
        + countByStatus d.complaints .rejected = d.complaints.length
    simp only [countByStatus_eq]
    exact countP_status_total d.complaints
  · have hfn : (fun c => c.status == ComplaintStatus.resolved
        || c.status == ComplaintStatus.rejected) = isResOrRej :=
      funext (fun _ => rfl)
    show calculateAverageResolutionTime d.complaints = _
    rw [hfn, calcAvg_spec]

/-! ### C2: uniqueness of complaint ids over reachable states -/

/-- Replacing the complaint at an occupied index by one with the same id
leaves the id list unchanged. -/
theorem complaintIds_set (l : List Complaint) (i : Nat) (c c' : Complaint)
    (hc : l[i]? = some c) (hid : c'.id = c.id) :
    (l.set i c').map (fun x => x.id) = l.map (fun x => x.id) := by
  rw [List.map_set]
  apply set_of_getElem?
  rw [List.getElem?_map, hc]
  simp [hid]

/-- `updateComplaintStatus` never changes the list of complaint ids. -/
theorem updateComplaintStatus2_ids (d : AppData) (cid : String)
    (ns : ComplaintStatus) (note : Option String) (ub : String) (now : Int) :
    ((updateComplaintStatus2 d cid ns note ub now).2.complaints).map
        (fun x => x.id)
      = d.complaints.map (fun x => x.id) := by
  unfold updateComplaintStatus2
  cases hidx : d.complaints.findIdx? (fun c => c.id == cid) with
  | none => rfl
  | some i =>
    simp only
    cases hc : d.complaints[i]? with
    | none => rfl
    | some c =>
      simp only
      exact complaintIds_set d.complaints i c _ hc rfl

/-- `addComment` never changes the list of complaint ids. -/
theorem addComment_ids (d : AppData) (cid : String) (t a : String) (p : Bool)
    (now : Int) :
    ((addComment d cid t a p now).2.complaints).map (fun x => x.id)
      = d.complaints.map (fun x => x.id) := by
  unfold addComment
  cases hidx : d.complaints.findIdx? (fun c => c.id == cid) with
  | none => rfl
  | some i =>
    simp only
    cases hc : d.complaints[i]? with
    | none => rfl
    | some c =>
      simp only
      exact complaintIds_set d.complaints i c _ hc rfl

/-- One hook mutation preserves id uniqueness, provided a `create` op only
uses an id not already present. -/
theorem step_preserves_uniqueIds (d : AppData) (op : Op)
    (h : uniqueIds d) (hf : opFreshId d op = true) :
    uniqueIds (step d op) := by
  cases op with
  | create inp id now =>
    have hfresh : id ∉ complaintIds d := by
      simp only [opFreshId, Bool.not_eq_eq_eq_not, Bool.not_true] at hf
      simpa using hf
    show ((d.complaints ++ [buildComplaint2 inp id now]).map
      (fun x => x.id)).Nodup
    rw [List.map_append, List.nodup_append]
    refine ⟨h, by simp, ?_⟩
    intro a ha hb
    simp only [List.map_cons, List.map_nil, List.mem_cons,
      List.not_mem_nil, or_false] at hb
    subst hb
    exact hfresh ha
  | update cid ns note ub now =>
    show ((updateComplaintStatus2 d cid ns note ub now).2.complaints.map
      (fun x => x.id)).Nodup
    rw [updateComplaintStatus2_ids]
    exact h
  | comment cid t a p now =>
    show ((addComment d cid t a p now).2.complaints.map
      (fun x => x.id)).Nodup
    rw [addComment_ids]
    exact h

/-- C2 counterexample.  Uniqueness of complaint ids fails on a reachable
state: when the two `Math.random()` draws of `generateSampleData` coincide
(here both `7`, on 2024-01-15), the initial state itself (reachable by the
empty operation sequence) holds two distinct complaints with the same id
`CT-20240115-0007`. -/
theorem uniqueIds_counterexample :
    ¬ uniqueIds (applyOps (generateSampleData 0 2024 1 15 7 7) []) := by
  decide

/-- C2 as amended.  If the starting state has unique complaint ids (which
holds for sample data whose two generated ids differ) and every id handed to
`createComplaint` along the run is fresh for the state it is applied in, then
every reachable state has unique complaint ids
(`updateComplaintStatus` and `addComment` preserve ids unconditionally). -/
theorem uniqueIds_invariant (init : AppData) (ops : List Op)
    (h0 : uniqueIds init) (hf : freshOps init ops = true) :
    uniqueIds (applyOps init ops) := by
  induction ops generalizing init with
  | nil => exact h0
  | cons op rest ih =>
    rw [freshOps, Bool.and_eq_true] at hf
    exact ih (step init op) (step_preserves_uniqueIds init op h0 hf.1) hf.2

/-- Witness for the amended C2: sample data with distinct draws, followed by
one `create` with a fresh id, one status update and one comment. -/
theorem uniqueIds_invariant_witness :
    uniqueIds (applyOps (generateSampleData 0 2024 1 15 1 2)
      [.create { title := "T", description := "D", category := .other,
                 priority := .low, status := .new,
                 reporter := { name := "Alex Doe", email := "alex@example.com",
                               preferredContact := "email" } } "CT-20240116-0003" 5,
       .update "CT-20240115-0001" .resolved none "Admin" 6,
       .comment "CT-20240116-0003" "looking into it" "Admin" false 7]) :=
  uniqueIds_invariant (generateSampleData 0 2024 1 15 1 2) _
    (by decide) (by decide)


theorem filterByStatus_eq (flt : Option (List ComplaintStatus))
    (l : List Complaint) :
    filterByStatus flt l = l.filter (fun c => passesOpt flt c.status) := by
  cases flt with
  | none => simp [filterByStatus, passesOpt]
  | some xs =>
    by_cases hxs : xs.isEmpty
    · simp [filterByStatus, passesOpt, hxs]
    · simp only [filterByStatus, passesOpt]
      simp [hxs]

theorem filterByCategory_eq (flt : Option (List ComplaintCategory))
    (l : List Complaint) :
    filterByCategory flt l = l.filter (fun c => passesOpt flt c.category) := by
  cases flt with
  | none => simp [filterByCategory, passesOpt]
  | some xs =>
    by_cases hxs : xs.isEmpty
    · simp [filterByCategory, passesOpt, hxs]
    · simp only [filterByCategory, passesOpt]
      simp [hxs]

theorem filterByPriority_eq (flt : Option (List Priority))
    (l : List Complaint) :
    filterByPriority flt l = l.filter (fun c => passesOpt flt c.priority) := by
  cases flt with
  | none => simp [filterByPriority, passesOpt]
  | some xs =>
    by_cases hxs : xs.isEmpty
    · simp [filterByPriority, passesOpt, hxs]
    · simp only [filterByPriority, passesOpt]
      simp [hxs]

theorem filterByAssignee_eq (flt : Option (List String)) (l : List Complaint) :
    filterByAssignee flt l = l.filter (fun c => passesAssignee flt c) := by
  cases flt with
  | none => simp [filterByAssignee, passesAssignee]
  | some xs =>
    by_cases hxs : xs.isEmpty
    · simp [filterByAssignee, passesAssignee, hxs]
    · simp only [filterByAssignee, passesAssignee]
      simp [hxs]

theorem filterBySearch_eq (hit : String → Complaint → Bool)
    (q : Option String) (l : List Complaint) :
    filterBySearch hit q l = l.filter (fun c => passesSearch hit q c) := by
  cases q with
  | none => simp [filterBySearch, passesSearch]
  | some s =>
    by_cases hs : s = ""
    · simp [filterBySearch, passesSearch, hs]
    · have hs' : (s == "") = false := by simpa using hs
      simp only [filterBySearch, passesSearch]
      simp [hs, hs']

theorem filterByDateRange_eq (flt : Option DateRange) (l : List Complaint) :
    filterByDateRange flt l = l.filter (fun c => passesDateRange flt c) := by
  cases flt with
  | none => simp [filterByDateRange, passesDateRange]
  | some dr => rfl

/-- The first filter pipeline filters by the pointwise predicate. -/
theorem applyFilters1_eq (f : ComplaintFilters) (l : List Complaint) :
    applyFilters1 f l = l.filter (matches1 f) := by
  unfold applyFilters1
  rw [filterBySearch_eq, filterByStatus_eq, filterByCategory_eq,
    filterByPriority_eq, List.filter_filter, List.filter_filter,
    List.filter_filter]
  apply List.filter_congr
  intro c _
  simp only [matches1]
  cases hS : passesSearch searchHit1 f.searchQuery c <;>
    cases h1 : passesOpt f.status c.status <;>
    cases h2 : passesOpt f.category c.category <;>
    cases h3 : passesOpt f.priority c.priority <;> simp_all

/-- The second filter pipeline filters by the pointwise predicate. -/
theorem applyFilters2_eq (f : ComplaintFilters) (l : List Complaint) :
    applyFilters2 f l = l.filter (matches2 f) := by
  unfold applyFilters2
  rw [filterByStatus_eq, filterByCategory_eq, filterByPriority_eq,
    filterByAssignee_eq, filterBySearch_eq, filterByDateRange_eq,
    List.filter_filter, List.filter_filter, List.filter_filter,
    List.filter_filter, List.filter_filter]
  apply List.filter_congr
  intro c _
  simp only [matches2]
  cases h1 : passesOpt f.status c.status <;>
    cases h2 : passesOpt f.category c.category <;>
    cases h3 : passesOpt f.priority c.priority <;>
    cases h4 : passesAssignee f.assignee c <;>
    cases h5 : passesSearch searchHit2 f.searchQuery c <;>
    cases h6 : passesDateRange f.dateRange c <;> simp_all

/-! ### C3: pagination is offset-based slicing -/

/-- For non-negative, ordered indices, the JS slice is drop-then-take. -/
theorem jsSlice_nonneg {α : Type} (xs : List α) (s e : Int)
    (hs : 0 ≤ s) (hse : s ≤ e) :
    jsSlice xs s e = (xs.drop s.toNat).take (e - s).toNat := by
  simp only [jsSlice]
  have hlen : (0 : Int) ≤ (xs.length : Int) := Int.ofNat_nonneg _
  rw [if_neg (by omega), if_neg (by omega)]
  by_cases hsl : s ≤ (xs.length : Int)
  · rw [min_eq_left hsl]
    by_cases hel : e ≤ (xs.length : Int)
    · rw [min_eq_left hel]
    · rw [min_eq_right (by omega)]
      have hdrop : (xs.drop s.toNat).length = ((xs.length : Int) - s).toNat := by
        simp [List.length_drop]
        omega
      rw [List.take_of_length_le (by omega), List.take_of_length_le (by omega)]
  · rw [min_eq_right (by omega), min_eq_right (by omega)]
    have h1 : xs.drop ((xs.length : Int)).toNat = [] := by
      apply List.drop_eq_nil_of_le
      simp
    have h2 : xs.drop s.toNat = [] := by
      apply List.drop_eq_nil_of_le
      omega
    rw [h1, h2]
    simp

/-- C3.  With page `p ≥ 1` and limit `l ≥ 0`, both `getFilteredComplaints`
return as `complaints` the contiguous slice of the filtered-and-sorted list
starting at index `(p-1)*l`, of length at most `l`; and return as `total` the
number of complaints matching the filters, independent of `p` and `l`. -/
theorem getFilteredComplaints_paginates (d : AppData) (f : ComplaintFilters)
    (p : PaginationOptions) (hp : 1 ≤ p.page) (hl : 0 ≤ p.limit) :
    ((getFilteredComplaints1 d f (some p)).complaints
        = ((applySort p (applyFilters1 f d.complaints)).drop
            ((p.page - 1) * p.limit).toNat).take p.limit.toNat
      ∧ (getFilteredComplaints1 d f (some p)).complaints.length ≤ p.limit.toNat
      ∧ (getFilteredComplaints1 d f (some p)).total
          = d.complaints.countP (matches1 f)
      ∧ ∀ q : Option PaginationOptions,
          (getFilteredComplaints1 d f q).total
            = d.complaints.countP (matches1 f))
    ∧ ((getFilteredComplaints2 d f (some p)).complaints
        = ((applySort p (applyFilters2 f d.complaints)).drop
            ((p.page - 1) * p.limit).toNat).take p.limit.toNat
      ∧ (getFilteredComplaints2 d f (some p)).complaints.length ≤ p.limit.toNat
      ∧ (getFilteredComplaints2 d f (some p)).total
          = d.complaints.countP (matches2 f)
      ∧ ∀ q : Option PaginationOptions,
          (getFilteredComplaints2 d f q).total
            = d.complaints.countP (matches2 f)) := by
  have hstart : (0 : Int) ≤ (p.page - 1) * p.limit :=
    mul_nonneg (by omega) hl
  have hdiff : ((p.page - 1) * p.limit + p.limit - (p.page - 1) * p.limit).toNat
      = p.limit.toNat := by
    omega
  constructor
  · refine ⟨?_, ?_, ?_, ?_⟩
    · show jsSlice (applySort p (applyFilters1 f d.complaints)) _ _ = _
      rw [jsSlice_nonneg _ _ _ hstart (by omega), hdiff]
    · show (jsSlice (applySort p (applyFilters1 f d.complaints)) _ _).length ≤ _
      rw [jsSlice_nonneg _ _ _ hstart (by omega), hdiff]
      simp [List.length_take]
    · show (applyFilters1 f d.complaints).length = _
      rw [applyFilters1_eq, ← List.countP_eq_length_filter]
    · intro q
      cases q with
      | none =>
        show (applyFilters1 f d.complaints).length = _
        rw [applyFilters1_eq, ← List.countP_eq_length_filter]
      | some p' =>
        show (applyFilters1 f d.complaints).length = _
        rw [applyFilters1_eq, ← List.countP_eq_length_filter]
  · refine ⟨?_, ?_, ?_, ?_⟩
    · show jsSlice (applySort p (applyFilters2 f d.complaints)) _ _ = _
      rw [jsSlice_nonneg _ _ _ hstart (by omega), hdiff]
    · show (jsSlice (applySort p (applyFilters2 f d.complaints)) _ _).length ≤ _
      rw [jsSlice_nonneg _ _ _ hstart (by omega), hdiff]
      simp [List.length_take]
    · show (applyFilters2 f d.complaints).length = _
      rw [applyFilters2_eq, ← List.countP_eq_length_filter]
    · intro q
      cases q with
      | none =>
        show (applyFilters2 f d.complaints).length = _
        rw [applyFilters2_eq, ← List.countP_eq_length_filter]
      | some p' =>
        show (applyFilters2 f d.complaints).length = _
        rw [applyFilters2_eq, ← List.countP_eq_length_filter]

/-- Witness for C3 on the sample data, page 1 of limit 1 sorted by
creation time. -/
theorem getFilteredComplaints_paginates_witness :
    (1 : Int) ≤ 1 ∧ (0 : Int) ≤ 1
    ∧ (getFilteredComplaints1 (generateSampleData 0 2024 1 15 1 2) {}
        (some { page := 1, limit := 1, sortBy := .createdAt,
                sortOrder := .asc })).complaints
      = ((applySort { page := 1, limit := 1, sortBy := .createdAt,
                      sortOrder := .asc }
            (applyFilters1 {}
              (generateSampleData 0 2024 1 15 1 2).complaints)).drop
          (((1 : Int) - 1) * 1).toNat).take (1 : Int).toNat :=
  ⟨by decide, by decide,
   (getFilteredComplaints_paginates (generateSampleData 0 2024 1 15 1 2) {}
     { page := 1, limit := 1, sortBy := .createdAt, sortOrder := .asc }
     (by decide) (by decide)).1.1⟩

/-! ### C4: the comparator sort of the filtered list -/

/-- The JS `<` of the model is asymmetric on string characters. -/
theorem strLtL_asymm : ∀ as bs, strLtL as bs = true → strLtL bs as = false := by
  intro as
  induction as with
  | nil =>
    intro bs h
    cases bs with
    | nil => simp [strLtL] at h
    | cons b bs => rfl
  | cons a as ih =>
    intro bs h
    cases bs with
    | nil => simp [strLtL] at h
    | cons b bs =>
      unfold strLtL at h ⊢
      by_cases h1 : a.toNat < b.toNat
      · rw [if_neg (by omega), if_pos h1]
      · by_cases h2 : b.toNat < a.toNat
        · rw [if_neg h1, if_pos h2] at h
          exact absurd h (by simp)
        · rw [if_neg h1, if_neg h2] at h
          rw [if_neg h2, if_neg h1]
          exact ih bs h

/-- The JS `<` of the model is asymmetric. -/
theorem jsLt_asymm (u v : JSVal) (h : jsLt u v = true) : jsLt v u = false := by
  cases u with
  | undefined => simp [jsLt] at h
  | num a =>
    cases v with
    | undefined => simp [jsLt] at h
    | num b =>
      simp only [jsLt, decide_eq_true_eq] at h
      simp only [jsLt, decide_eq_false_iff_not]
      omega
    | str s =>
      simp only [jsLt] at h ⊢
      cases hs : strToNum s with
      | none => simp [hs] at h
      | some b =>
        simp only [hs, decide_eq_true_eq] at h
        simp only [hs, decide_eq_false_iff_not]
        omega
  | str s =>
    cases v with
    | undefined => simp [jsLt] at h
    | num b =>
      simp only [jsLt] at h ⊢
      cases hs : strToNum s with
      | none => simp [hs] at h
      | some a =>
        simp only [hs, decide_eq_true_eq] at h
        simp only [hs, decide_eq_false_iff_not]
        omega
    | str t =>
      simp only [jsLt, jsStrLt] at h ⊢
      exact strLtL_asymm _ _ h

/-- The comparator ordering is total. -/
theorem cmpLe_total (k : SortKey) (ord : SortOrder) (a b : Complaint) :
    cmpLe k ord a b ∨ cmpLe k ord b a := by
  unfold cmpLe jsCmp
  by_cases h1 : jsLt (sortKeyVal k a) (sortKeyVal k b)
  · have h2 : jsLt (sortKeyVal k b) (sortKeyVal k a) = false :=
      jsLt_asymm _ _ h1
    cases ord with
    | asc =>
      left
      rw [if_pos h1]
      decide
    | desc =>
      right
      rw [if_neg (by simp [h2]), if_pos h1]
      decide
  · by_cases h2 : jsLt (sortKeyVal k b) (sortKeyVal k a)
    · cases ord with
      | asc =>
        right
        rw [if_pos h2]
        decide
      | desc =>
        left
        rw [if_neg h1, if_pos h2]
        decide
    · left
      rw [if_neg h1, if_neg h2]

/-- C4 counterexample.  Sorting by `assignee` ascending, a complaint without
an assignee (whose key is `undefined`, incomparable under JS `<`) blocks the
comparator sort: the output keeps assignee `"b"` before assignee `"a"`, so
the list `getFilteredComplaints` slices from is not non-decreasing under the
comparator's `<`. -/
theorem applySort_not_sorted_counterexample :
    ¬ ((applySort
          { page := 1, limit := 10, sortBy := .assignee, sortOrder := .asc }
          (applyFilters2 {}
            (testData [testComplaint "c1" "d" (some "b") 0,
                       testComplaint "c2" "d" none 0,
                       testComplaint "c3" "d" (some "a") 0]).complaints)).Pairwise
        (fun a b =>
          jsLt (sortKeyVal .assignee b) (sortKeyVal .assignee a) = false)) := by
  decide

/-- C4 as amended.  The sorted list `getFilteredComplaints` slices from is
always a permutation of the filtered complaints; and whenever the
comparator's ordering is transitive on complaints (as for sort fields whose
values are uniformly comparable, e.g. every never-`undefined` string or
number field), it is non-decreasing in the sort field under the comparator's
`<` for ascending order and non-increasing for descending order. -/
theorem applySort_sorts (l : List Complaint) (p : PaginationOptions) :
    (applySort p l).Perm l
    ∧ ((∀ a b c : Complaint, cmpLe p.sortBy p.sortOrder a b →
          cmpLe p.sortBy p.sortOrder b c → cmpLe p.sortBy p.sortOrder a c) →
        (applySort p l).Pairwise (fun a b =>
          (match p.sortOrder with
           | .asc => jsLt (sortKeyVal p.sortBy b) (sortKeyVal p.sortBy a)
           | .desc => jsLt (sortKeyVal p.sortBy a) (sortKeyVal p.sortBy b))
            = false)) := by
  constructor
  · exact List.perm_insertionSort _ l
  · intro htrans
    letI : IsTrans Complaint (cmpLe p.sortBy p.sortOrder) := ⟨htrans⟩
    letI : IsTotal Complaint (cmpLe p.sortBy p.sortOrder) :=
      ⟨cmpLe_total p.sortBy p.sortOrder⟩
    have hs : (applySort p l).Pairwise (cmpLe p.sortBy p.sortOrder) :=
      List.sorted_insertionSort (cmpLe p.sortBy p.sortOrder) l
    apply hs.imp
    intro a b hab
    unfold cmpLe jsCmp at hab
    cases hord : p.sortOrder with
    | asc =>
      rw [hord] at hab
      by_cases h1 : jsLt (sortKeyVal p.sortBy a) (sortKeyVal p.sortBy b)
      · exact jsLt_asymm _ _ h1
      · by_cases h2 : jsLt (sortKeyVal p.sortBy b) (sortKeyVal p.sortBy a)
        · rw [if_neg h1, if_pos h2] at hab
          exact absurd hab (by decide)
        · simpa using h2
    | desc =>
      rw [hord] at hab
      by_cases h1 : jsLt (sortKeyVal p.sortBy a) (sortKeyVal p.sortBy b)
      · rw [if_pos h1] at hab
        exact absurd hab (by decide)
      · simpa using h1

/-- The comparator ordering on the always-defined numeric `createdAt` field
is transitive (for either sort order). -/
theorem cmpLe_createdAt_trans (ord : SortOrder) :
    ∀ a b c : Complaint, cmpLe .createdAt ord a b →
      cmpLe .createdAt ord b c → cmpLe .createdAt ord a c := by
  intro a b c h1 h2
  unfold cmpLe jsCmp sortKeyVal at h1 h2 ⊢
  cases ord <;>
    simp only [jsLt, decide_eq_true_eq] at h1 h2 ⊢ <;>
    split_ifs at h1 h2 ⊢ <;> omega

/-- Witness for the amended C4: sorting two concrete complaints by
`createdAt` ascending. -/
theorem applySort_sorts_witness :
    (applySort { page := 1, limit := 10, sortBy := .createdAt,
                 sortOrder := .asc }
        [testComplaint "c1" "d" none 5, testComplaint "c2" "d" none 3]).Perm
      [testComplaint "c1" "d" none 5, testComplaint "c2" "d" none 3]
    ∧ (applySort { page := 1, limit := 10, sortBy := .createdAt,
                   sortOrder := .asc }
        [testComplaint "c1" "d" none 5,
         testComplaint "c2" "d" none 3]).Pairwise (fun a b =>
          jsLt (sortKeyVal .createdAt b) (sortKeyVal .createdAt a) = false) :=
  ⟨(applySort_sorts
      [testComplaint "c1" "d" none 5, testComplaint "c2" "d" none 3]
      { page := 1, limit := 10, sortBy := .createdAt, sortOrder := .asc }).1,
   (applySort_sorts
      [testComplaint "c1" "d" none 5, testComplaint "c2" "d" none 3]
      { page := 1, limit := 10, sortBy := .createdAt, sortOrder := .asc }).2
     (cmpLe_createdAt_trans .asc)⟩

/-! ### C5: the two `getFilteredComplaints` implementations -/

/-- C5 counterexample.  The two implementations disagree: searching for
`"zebra"` over a complaint whose description (but neither id, title, nor
reporter name) contains it, the first implementation (which does not search
descriptions) drops the complaint while the second keeps it. -/
theorem getFilteredComplaints_equiv_counterexample :
    getFilteredComplaints1 (testData [testComplaint "c1" "zebra" none 0])
        { searchQuery := some "zebra" } none
      ≠ getFilteredComplaints2 (testData [testComplaint "c1" "zebra" none 0])
        { searchQuery := some "zebra" } none := by
  decide

/-- C5 as amended.  The two implementations agree on every state and
pagination whenever the filter set exercises none of their differences: the
`assignee` filter is absent or empty, the `dateRange` filter is absent, and
the search query is absent or the empty string (both falsy). -/
theorem getFilteredComplaints_equiv (d : AppData) (f : ComplaintFilters)
    (pg : Option PaginationOptions)
    (ha : f.assignee = none ∨ f.assignee = some [])
    (hd : f.dateRange = none)
    (hs : f.searchQuery = none ∨ f.searchQuery = some "") :
    getFilteredComplaints1 d f pg = getFilteredComplaints2 d f pg := by
  have h1 : ∀ l : List Complaint, filterBySearch searchHit1 f.searchQuery l = l := by
    intro l
    rcases hs with h | h <;> simp [h, filterBySearch]
  have h2 : ∀ l : List Complaint, filterBySearch searchHit2 f.searchQuery l = l := by
    intro l
    rcases hs with h | h <;> simp [h, filterBySearch]
  have h3 : ∀ l : List Complaint, filterByAssignee f.assignee l = l := by
    intro l
    rcases ha with h | h <;> simp [h, filterByAssignee]
  have h4 : ∀ l : List Complaint, filterByDateRange f.dateRange l = l := by
    intro l
    simp [hd, filterByDateRange]
  have hfl : applyFilters1 f d.complaints = applyFilters2 f d.complaints := by
    unfold applyFilters1 applyFilters2
    rw [h1, h4, h2, h3]
  unfold getFilteredComplaints1 getFilteredComplaints2
  rw [hfl]

/-- Witness for the amended C5: empty filter set, paginated, on concrete
data. -/
theorem getFilteredComplaints_equiv_witness :
    getFilteredComplaints1
        (testData [testComplaint "c1" "d1" none 5,
                   testComplaint "c2" "d2" (some "x") 3]) {}
        (some { page := 1, limit := 1, sortBy := .createdAt,
                sortOrder := .asc })
      = getFilteredComplaints2
        (testData [testComplaint "c1" "d1" none 5,
                   testComplaint "c2" "d2" (some "x") 3]) {}
        (some { page := 1, limit := 1, sortBy := .createdAt,
                sortOrder := .asc }) :=
  getFilteredComplaints_equiv
    (testData [testComplaint "c1" "d1" none 5,
               testComplaint "c2" "d2" (some "x") 3]) {}
    (some { page := 1, limit := 1, sortBy := .createdAt, sortOrder := .asc })
    (Or.inl rfl) rfl (Or.inl rfl)
